import Mathlib

/-!
Verification of `src/sokol/c/sokol_defines.h` from floooh/kc85.zig.

The header is pure conditional compilation: it tests the predefined
platform identifiers `__ANDROID__`, `_WIN32`, `__APPLE__` and emits
`#define` directives (backend selection, entry-point suppression,
logging) and one conditional `#include`.  We embed the preprocessor
fragment shallowly: a preprocessing environment is the set of defined
identifiers (as a `String → Bool` predicate), the header is a list of
conditional blocks transliterated from the source, and the evaluator
walks the blocks in order, threading newly `#define`d names into the
environment exactly as the C preprocessor does.
-/

/-- A condition of an `#if`/`#elif` line: `defined(name)` or `!defined(name)`. -/
inductive Cond where
  | isDef (name : String)
  | notDef (name : String)
deriving DecidableEq, Repr

/-- A directive emitted inside a branch: a `#define` of a name (for the
function-like `SOKOL_LOG(msg)` we record the defined name; its body is
never examined by the header itself), or an `#include` of a path. -/
inductive Item where
  | define (name : String)
  | includeFile (path : String)
deriving DecidableEq, Repr

/-- One `#if .. #elif .. #else .. #endif` block: the guarded branches in
order, and the (possibly empty) `#else` branch. -/
structure CondBlock where
  branches : List (Cond × List Item)
  elseItems : List Item

/-- A preprocessing environment: which identifiers are currently defined. -/
abbrev Env := String → Bool

def evalCond (env : Env) : Cond → Bool
  | .isDef n => env n
  | .notDef n => !(env n)

/-- Select the first branch whose condition holds, else the `#else` items. -/
def evalBranches (env : Env) : List (Cond × List Item) → List Item → List Item
  | [], els => els
  | (c, items) :: rest, els =>
      if evalCond env c then items else evalBranches env rest els

def evalBlock (env : Env) (b : CondBlock) : List Item :=
  evalBranches env b.branches b.elseItems

/-- The names `#define`d by a list of directives. -/
def defineNames (items : List Item) : List String :=
  items.filterMap fun i =>
    match i with
    | .define n => some n
    | .includeFile _ => none

/-- Extend the environment with newly defined names. -/
def addDefines (env : Env) (names : List String) : Env :=
  fun s => names.contains s || env s

/-- Run the blocks in order; names defined by an earlier block are visible
to the conditions of a later one, as in the C preprocessor. -/
def runHeader (env : Env) : List CondBlock → List Item
  | [] => []
  | b :: rest =>
      let items := evalBlock env b
      items ++ runHeader (addDefines env (defineNames items)) rest

/-- Transliteration of `sokol_defines.h`:

    #if !defined(__ANDROID__)
        #define SOKOL_NO_ENTRY
    #endif
    #if defined(_WIN32)
        #define SOKOL_WIN32_FORCE_MAIN
        #define SOKOL_D3D11
        #define SOKOL_LOG(msg) OutputDebugStringA(msg)
    #elif defined(__APPLE__)
        #define SOKOL_METAL
    #else
        #define SOKOL_GLCORE33
    #endif
    #if defined(__APPLE__)
    #include <TargetConditionals.h>
    #endif
-/
def sokol_defines_h : List CondBlock :=
  [ { branches := [(Cond.notDef "__ANDROID__", [Item.define "SOKOL_NO_ENTRY"])],
      elseItems := [] },
    { branches := [(Cond.isDef "_WIN32",
                      [Item.define "SOKOL_WIN32_FORCE_MAIN",
                       Item.define "SOKOL_D3D11",
                       Item.define "SOKOL_LOG"]),
                   (Cond.isDef "__APPLE__", [Item.define "SOKOL_METAL"])],
      elseItems := [Item.define "SOKOL_GLCORE33"] },
    { branches := [(Cond.isDef "__APPLE__", [Item.includeFile "TargetConditionals.h"])],
      elseItems := [] } ]

/-- A target platform configuration: whether each of the three platform
identifiers the header tests is predefined by the compiler. -/
structure Config where
  android : Bool
  win32 : Bool
  apple : Bool
deriving DecidableEq, Repr

/-- The environment a compiler for configuration `c` presents. -/
def platformEnv (c : Config) : Env :=
  fun s =>
    (s == "__ANDROID__" && c.android) ||
    (s == "_WIN32" && c.win32) ||
    (s == "__APPLE__" && c.apple)

/-- Everything the header emits on configuration `c`. -/
def headerItems (c : Config) : List Item :=
  runHeader (platformEnv c) sokol_defines_h

/-- The macros the header defines on configuration `c`. -/
def definedMacros (c : Config) : List String :=
  defineNames (headerItems c)

/-- The files the header includes on configuration `c`. -/
def includedFiles (c : Config) : List String :=
  (headerItems c).filterMap fun i =>
    match i with
    | .includeFile p => some p
    | .define _ => none

/-- The three backend-selection macros. -/
def backendMacros : List String :=
  ["SOKOL_D3D11", "SOKOL_METAL", "SOKOL_GLCORE33"]

/-- The stated external macro interface of the header. -/
def interfaceMacros : List String :=
  ["SOKOL_NO_ENTRY", "SOKOL_WIN32_FORCE_MAIN", "SOKOL_D3D11",
   "SOKOL_LOG", "SOKOL_METAL", "SOKOL_GLCORE33"]

/-- All eight target platform configurations. -/
def allConfigs : List Config :=
  [⟨false, false, false⟩, ⟨false, false, true⟩,
   ⟨false, true, false⟩, ⟨false, true, true⟩,
   ⟨true, false, false⟩, ⟨true, false, true⟩,
   ⟨true, true, false⟩, ⟨true, true, true⟩]

/-- Whether configuration `c` receives at least one backend macro. -/
def hasBackend (c : Config) : Bool :=
  (definedMacros c).any fun m => backendMacros.contains m

/-- Whether some configuration receives no backend macro at all. -/
def existsUnhandledConfig : Bool :=
  allConfigs.any fun c => !(hasBackend c)

/-- Closed form of the header's output as a function of the three platform
identifiers it tests (established below in `runHeader_sokol`). -/
def sokolItems (android win32 apple : Bool) : List Item :=
  (if android then [] else [Item.define "SOKOL_NO_ENTRY"]) ++
  (if win32 then
     [Item.define "SOKOL_WIN32_FORCE_MAIN", Item.define "SOKOL_D3D11",
      Item.define "SOKOL_LOG"]
   else if apple then [Item.define "SOKOL_METAL"]
   else [Item.define "SOKOL_GLCORE33"]) ++
  (if apple then [Item.includeFile "TargetConditionals.h"] else [])

/-- An environment defining _WIN32 and an identifier the header never
tests: it agrees with `platformEnv ⟨false, true, false⟩` on the three
platform identifiers but differs from it elsewhere. -/
def altEnv : Env :=
  fun s => s == "_WIN32" || s == "OTHER_TOOLCHAIN_ID"

lemma mem_allConfigs (c : Config) : c ∈ allConfigs := by
  obtain ⟨a, w, p⟩ := c
  cases a <;> cases w <;> cases p <;> simp [allConfigs]

/-- Claim C1: for every target platform configuration, exactly one of the
three backend-selection macros SOKOL_D3D11, SOKOL_METAL, SOKOL_GLCORE33 is
defined by the header and the other two are absent. -/
theorem sokol_backend_exclusive (c : Config) :
    ((definedMacros c).contains "SOKOL_D3D11").toNat +
    ((definedMacros c).contains "SOKOL_METAL").toNat +
    ((definedMacros c).contains "SOKOL_GLCORE33").toNat = 1 := by
  obtain ⟨a, w, p⟩ := c
  cases a <;> cases w <;> cases p <;> decide

/-- Claim C2: the logging macro SOKOL_LOG is defined if and only if the
Windows branch is taken (i.e. iff _WIN32 is defined); on every non-Windows
configuration it is absent. -/
theorem sokol_log_iff_win32 (c : Config) :
    (definedMacros c).contains "SOKOL_LOG" = c.win32 := by
  obtain ⟨a, w, p⟩ := c
  cases a <;> cases w <;> cases p <;> decide

/-- Claim C3: SOKOL_NO_ENTRY is defined on exactly those configurations
where __ANDROID__ is not defined, independently of the backend branch. -/
theorem sokol_no_entry_iff_not_android (c : Config) :
    (definedMacros c).contains "SOKOL_NO_ENTRY" = !c.android := by
  obtain ⟨a, w, p⟩ := c
  cases a <;> cases w <;> cases p <;> decide

/-- Claim C4, counterexample: it is false that some target configuration
is left without a backend macro — no configuration among all eight is
unhandled, because the header's `#else` branch is a fallback. -/
theorem sokol_no_unhandled_config : existsUnhandledConfig = false := by
  decide

/-- Claim C4, as amended: every target platform configuration matches some
backend-selection branch — the `#else` case is a fallback defining
SOKOL_GLCORE33 — so every configuration receives a backend macro. -/
theorem sokol_every_config_has_backend (c : Config) :
    hasBackend c = true := by
  obtain ⟨a, w, p⟩ := c
  cases a <;> cases w <;> cases p <;> decide

/-- Claim C5: the platform-to-backend lookup maps each platform class to
its stated API class: with _WIN32 the header defines SOKOL_D3D11 (together
with SOKOL_WIN32_FORCE_MAIN), with __APPLE__ but not _WIN32 it defines
SOKOL_METAL, and on every other configuration SOKOL_GLCORE33. -/
theorem sokol_backend_lookup (c : Config) :
    (definedMacros c).filter (fun m => backendMacros.contains m) =
      (if c.win32 then ["SOKOL_D3D11"]
       else if c.apple then ["SOKOL_METAL"]
       else ["SOKOL_GLCORE33"]) ∧
    (definedMacros c).contains "SOKOL_WIN32_FORCE_MAIN" = c.win32 := by
  obtain ⟨a, w, p⟩ := c
  cases a <;> cases w <;> cases p <;> exact ⟨by decide, by decide⟩

/-- Claim C6: TargetConditionals.h is included if and only if __APPLE__ is
defined, and no other configuration triggers any include. -/
theorem sokol_include_iff_apple (c : Config) :
    includedFiles c = if c.apple then ["TargetConditionals.h"] else [] := by
  obtain ⟨a, w, p⟩ := c
  cases a <;> cases w <;> cases p <;> decide

/-- Claim C7: macro definitions are never mutated: on every configuration
each macro name is defined by at most one `#define` along the taken
branches (the emitted list of defined names has no duplicate), and the
header contains no redefinition or `#undef` of any name. -/
theorem sokol_defines_nodup (c : Config) :
    (definedMacros c).Nodup := by
  obtain ⟨a, w, p⟩ := c
  cases a <;> cases w <;> cases p <;> decide

/-- Claim C8: the macro namespace emitted by the header is confined to the
stated external interface: every macro defined on any configuration is one
of SOKOL_NO_ENTRY, SOKOL_WIN32_FORCE_MAIN, SOKOL_D3D11, SOKOL_LOG,
SOKOL_METAL, SOKOL_GLCORE33. -/
theorem sokol_interface_confined (c : Config) :
    (definedMacros c).all (fun m => interfaceMacros.contains m) = true := by
  obtain ⟨a, w, p⟩ := c
  cases a <;> cases w <;> cases p <;> decide

/-- Claim C9: branch priority resolves overlapping platform identifiers in
favor of Windows: whenever both _WIN32 and __APPLE__ are defined, the
header defines SOKOL_D3D11, SOKOL_WIN32_FORCE_MAIN and SOKOL_LOG, and does
not define SOKOL_METAL. -/
theorem sokol_win32_beats_apple (c : Config)
    (hw : c.win32 = true) (hp : c.apple = true) :
    (definedMacros c).contains "SOKOL_D3D11" = true ∧
    (definedMacros c).contains "SOKOL_WIN32_FORCE_MAIN" = true ∧
    (definedMacros c).contains "SOKOL_LOG" = true ∧
    (definedMacros c).contains "SOKOL_METAL" = false := by
  obtain ⟨a, w, p⟩ := c
  cases a <;> cases w <;> cases p <;> first
    | exact absurd hw (by decide)
    | exact absurd hp (by decide)
    | exact ⟨by decide, by decide, by decide, by decide⟩

/-- Witness for claim C9 at the configuration where both _WIN32 and
__APPLE__ are defined (and __ANDROID__ is not). -/
theorem sokol_win32_beats_apple_witness :
    (Config.mk false true true).win32 = true ∧
    (Config.mk false true true).apple = true ∧
    ((definedMacros ⟨false, true, true⟩).contains "SOKOL_D3D11" = true ∧
     (definedMacros ⟨false, true, true⟩).contains "SOKOL_WIN32_FORCE_MAIN" = true ∧
     (definedMacros ⟨false, true, true⟩).contains "SOKOL_LOG" = true ∧
     (definedMacros ⟨false, true, true⟩).contains "SOKOL_METAL" = false) :=
  ⟨rfl, rfl, sokol_win32_beats_apple ⟨false, true, true⟩ rfl rfl⟩

lemma runHeader_sokol (env : Env) :
    runHeader env sokol_defines_h =
      sokolItems (env "__ANDROID__") (env "_WIN32") (env "__APPLE__") := by
  cases hA : env "__ANDROID__" <;> cases hW : env "_WIN32" <;>
    cases hP : env "__APPLE__" <;>
    simp [runHeader, sokol_defines_h, evalBlock, evalBranches, evalCond,
          defineNames, addDefines, sokolItems, hA, hW, hP]

/-- Claim C10: the header's output is deterministic in exactly three
inputs: the output is a function only of whether __ANDROID__, _WIN32 and
__APPLE__ are defined, so any two preprocessing runs whose environments
agree on those three identifiers produce identical output, whatever else
the environments define. -/
theorem sokol_output_deterministic (e₁ e₂ : Env)
    (hA : e₁ "__ANDROID__" = e₂ "__ANDROID__")
    (hW : e₁ "_WIN32" = e₂ "_WIN32")
    (hP : e₁ "__APPLE__" = e₂ "__APPLE__") :
    runHeader e₁ sokol_defines_h = runHeader e₂ sokol_defines_h := by
  rw [runHeader_sokol, runHeader_sokol, hA, hW, hP]

/-- Witness for claim C10: the plain Windows environment and `altEnv`
(which additionally defines an identifier the header never tests) agree on
the three platform identifiers, and the header's output on both is the
same. -/
theorem sokol_output_deterministic_witness :
    platformEnv ⟨false, true, false⟩ "__ANDROID__" = altEnv "__ANDROID__" ∧
    platformEnv ⟨false, true, false⟩ "_WIN32" = altEnv "_WIN32" ∧
    platformEnv ⟨false, true, false⟩ "__APPLE__" = altEnv "__APPLE__" ∧
    runHeader (platformEnv ⟨false, true, false⟩) sokol_defines_h =
      runHeader altEnv sokol_defines_h :=
  ⟨by decide, by decide, by decide,
   sokol_output_deterministic _ _ (by decide) (by decide) (by decide)⟩
